import Mathlib

/-!
# Earthquake globe page: a shallow embedding of `main.js`

The page script keeps a handful of mutable variables (the elevation mode, the
zooming flag, the highlight handle, the legend visibility) and reacts to clicks,
promise completions and animation frames.  The handlers are embedded as pure
functions on an explicit `Session` record; calls into the mapping SDK and the
browser are recorded in a call log so that their order can be stated.
-/

namespace EarthquakesViz

/-! ## Date formatting -/

/-- Calendar fields read from a valid `Date` object through `getFullYear`, the month of
`Intl.DateTimeFormat`, `getDate`, `getHours` and `getMinutes`, all in the zone of the host. -/
structure DateFields where
  year : Int
  month : Fin 12
  day : Nat
  hours : Nat
  minutes : Nat
deriving DecidableEq, Repr

/-- Text produced by `Intl.DateTimeFormat("en-US", { month: "long" })` for each month,
counted from January as 0. -/
def monthLong : Fin 12 → String
  | 0 => "January"
  | 1 => "February"
  | 2 => "March"
  | 3 => "April"
  | 4 => "May"
  | 5 => "June"
  | 6 => "July"
  | 7 => "August"
  | 8 => "September"
  | 9 => "October"
  | 10 => "November"
  | 11 => "December"

/-- Services of the JavaScript host that the script calls but does not define: the
break-down of a valid timestamp (milliseconds since the epoch) into local calendar fields
done by `new Date(t)` and its getters, and the text of a number inside a template literal.
The fields are meaningful for valid timestamps only, see `validTime`. -/
structure Host where
  localFields : Int → DateFields
  numberText : ℚ → String

/-- Embedding of `formatDate` (main.js, lines 190-199) on a valid timestamp: the text it
returns.  What happens on an invalid timestamp is in `formatDateCall`. -/
def formatDate (host : Host) (date : Int) : String :=
  let fDate := host.localFields date
  let year := fDate.year
  let month := monthLong fDate.month
  let day := fDate.day
  let hours := fDate.hours
  let minutes := fDate.minutes
  let pfx := if minutes < 10 then "0" else ""
  toString day ++ " " ++ month ++ " " ++ toString year ++ ", at " ++ toString hours ++ ":"
    ++ pfx ++ toString minutes

/-- Whether `new Date(t)` is a valid date: the time value lies within 8.64e15 milliseconds
of the epoch; outside that range the time value of the `Date` is `NaN`. -/
def validTime (t : Int) : Bool :=
  decide (-8640000000000000 ≤ t ∧ t ≤ 8640000000000000)

/-- The call `formatDate(date)` as a caller sees it: on a valid timestamp it returns the text
of `formatDate`; on an invalid one the `format` call of line 193 throws a `RangeError`. -/
def formatDateCall (host : Host) (date : Int) : Except String String :=
  if validTime date then
    Except.ok (formatDate host date)
  else
    Except.error "RangeError: Invalid time value"

/-- Specification side: a number below one hundred written with exactly two decimal digits. -/
def twoDigits (n : Nat) : String :=
  String.mk [Nat.digitChar (n / 10), Nat.digitChar (n % 10)]

/-- Specification side: a decimal text carries no zero padding when it is the single digit
`0` or does not start with the digit `0`. -/
def unpadded (s : String) : Prop :=
  s = "0" ∨ s.data.head? ≠ some '0'

instance (s : String) : Decidable (unpadded s) := by
  unfold unpadded; infer_instance

/-- Specification side: the number a text of decimal digits denotes. -/
def decimalValue (s : String) : Nat :=
  s.data.foldl (fun n c => n * 10 + (c.toNat - '0'.toNat)) 0

/-- Specification side: the text the formatting contract prescribes for given calendar
fields, `<day> <full month name> <year>, at <hours>:<mm>`. -/
def contractText (f : DateFields) : String :=
  toString f.day ++ " " ++ monthLong f.month ++ " " ++ toString f.year ++ ", at "
    ++ toString f.hours ++ ":" ++ twoDigits f.minutes

/-! ## Data model -/

/-- Attributes of one row of the earthquake layer (`eq_image.csv`); `time` is a number of
milliseconds since the epoch, valid or not, `mag` and `depth` are numbers, given by the
rational value they stand for. -/
structure Earthquake where
  place : String
  time : Int
  mag : ℚ
  depth : ℚ
  image : String
deriving DecidableEq, Repr

/-- An elevation configuration object as written in the script. -/
structure ElevationInfo where
  mode : String
  expression : String
  unit : String
deriving DecidableEq, Repr

/-- Embedding of the constant `exaggeratedElevation` (main.js, lines 101-107). -/
def exaggeratedElevation : ElevationInfo :=
  { mode := "absolute-height", expression := "-$feature.depth * 6", unit := "kilometers" }

/-- Embedding of the constant `realElevation` (main.js, lines 109-115). -/
def realElevation : ElevationInfo :=
  { mode := "absolute-height", expression := "-$feature.depth", unit := "kilometers" }

/-- A finite binary64 number of the script, `mantissa * 2 ^ exponent`.  The results of
`Binary64.ofRatio` are normalised: the mantissa has exactly 53 bits, or the number is zero.
The exponent is not bounded, so overflow to infinity is not modelled. -/
structure Binary64 where
  mantissa : Int
  exponent : Int
deriving DecidableEq, Repr

/-- Number of binary digits of `n`, with `fuel` at least that number. -/
def bitLength : Nat → Nat → Nat
  | 0, _ => 0
  | fuel + 1, n => if n = 0 then 0 else bitLength fuel (n / 2) + 1

/-- Numerator and denominator of `n / d / 2 ^ e`. -/
def scaleRatio (n d : Nat) (e : Int) : Nat × Nat :=
  if 0 ≤ e then (n, d * 2 ^ e.toNat) else (n * 2 ^ (-e).toNat, d)

/-- The binary64 number nearest to `n / d * 2 ^ shift`, negated when `negative`: the ratio
is scaled to a quotient of 53 bits and rounded to nearest, ties to the even mantissa. -/
def Binary64.ofRatio (negative : Bool) (n d : Nat) (shift : Int) : Binary64 :=
  if n = 0 then
    { mantissa := 0, exponent := 0 }
  else
    let k : Int := (bitLength n n : Int) - (bitLength d d : Int)
    let wide := scaleRatio n d (k - 53)
    let e : Int := if wide.2 * 2 ^ 53 ≤ wide.1 then k - 52 else k - 53
    let scaled := scaleRatio n d e
    let q := scaled.1 / scaled.2
    let r := scaled.1 % scaled.2
    let m := if scaled.2 < 2 * r ∨ (2 * r = scaled.2 ∧ q % 2 = 1) then q + 1 else q
    let m1 := if m = 2 ^ 53 then 2 ^ 52 else m
    let e1 := if m = 2 ^ 53 then e + 1 else e
    { mantissa := if negative then -(m1 : Int) else (m1 : Int), exponent := e1 + shift }

/-- Binary64 subtraction `x - y`: the exact difference rounded to nearest, ties to even. -/
def Binary64.sub (x y : Binary64) : Binary64 :=
  let e := min x.exponent y.exponent
  let exact : Int :=
    x.mantissa * 2 ^ (x.exponent - e).toNat - y.mantissa * 2 ^ (y.exponent - e).toNat
  Binary64.ofRatio (decide (exact < 0)) exact.natAbs 1 e

/-- The number literal `0.1` of line 251: the binary64 number nearest to 1/10. -/
def Binary64.tenth : Binary64 :=
  Binary64.ofRatio false 1 10 0

/-- The rational number a binary64 number stands for. -/
def Binary64.toRat (x : Binary64) : ℚ :=
  (x.mantissa : ℚ) * 2 ^ x.exponent

/-- Camera pose of the scene view: the three position components, heading and tilt. -/
structure Camera where
  longitude : Binary64
  latitude : Binary64
  z : Binary64
  heading : Binary64
  tilt : Binary64
deriving DecidableEq, Repr

/-- Calls that the script issues to the mapping SDK, the browser and the console. -/
inductive Call where
  | goTo (target : Earthquake) (zoom : Nat) (speedFactor : ℚ)
  | highlight (target : Earthquake) (handle : Nat)
  | remove (handle : Nat)
  | setCamera (camera : Camera)
  | requestAnimationFrame
  | consoleLog
  | consoleError (reason : String)
deriving DecidableEq, Repr

/-- A `goToButton`: its text and the earthquake captured by its click listener. -/
structure Button where
  innerText : String
  target : Earthquake
deriving DecidableEq, Repr

/-- One `content` element of the earthquake list: the markup text assigned to `innerHTML`
and the children the script appends with `appendChild`.  What the HTML parser of the browser
makes of the markup is not modelled. -/
structure Entry where
  innerHTML : String
  children : List Button
deriving DecidableEq, Repr

/-- Session state: the script variables (`exaggerated`, `earthquakeLayerView`,
`highlightHandler`, `zooming`, `legendVisible`) together with the SDK and document
properties the handlers read or write. -/
structure Session where
  /-- Script variable `exaggerated`. -/
  exaggerated : Bool
  /-- Script variable `earthquakeLayerView`: `false` is `null`, `true` the layer view. -/
  earthquakeLayerView : Bool
  /-- Script variable `highlightHandler`: `none` is `null`, otherwise the handle. -/
  highlightHandler : Option Nat
  /-- Script variable `zooming`. -/
  zooming : Bool
  /-- Script variable `legendVisible`. -/
  legendVisible : Bool
  /-- Property `earthquakeLayer.elevationInfo`. -/
  elevationInfo : ElevationInfo
  /-- Property `view.camera`. -/
  camera : Camera
  /-- Property `view.interacting`, maintained by the SDK. -/
  interacting : Bool
  /-- Highlights of the layer view that were created and not yet removed, by handle. -/
  highlights : List (Nat × Earthquake)
  /-- Number of highlight handles issued so far; the next handle gets this number. -/
  handles : Nat
  /-- Callbacks registered with `requestAnimationFrame` that have not run yet. -/
  pendingFrames : Nat
  /-- Property `legendContainer.style.display`. -/
  legendDisplay : String
  /-- Property `legendController.innerHTML`. -/
  legendLabel : String
  /-- Children of the `earthquake-list` element. -/
  list : List Entry
  /-- Log of the calls issued so far, oldest first. -/
  calls : List Call
deriving DecidableEq, Repr

/-- What the document provides before the script runs: the inline display value and the
label of the legend elements (the markup is not part of the script). -/
structure Page where
  legendDisplay : String
  legendLabel : String
deriving DecidableEq, Repr

/-- State right after the script body has run: the initial values of the script variables
(lines 116, 182, 183, 201, 264), the layer constructed with `exaggeratedElevation`
(line 121), the camera of lines 90-98 with each decimal literal read as the nearest binary64
number, an empty earthquake list and no call issued. -/
def initial (page : Page) : Session :=
  { exaggerated := true
    earthquakeLayerView := false
    highlightHandler := none
    zooming := false
    legendVisible := true
    elevationInfo := exaggeratedElevation
    camera :=
      { longitude := Binary64.ofRatio true 10561273180 100000000 0
        latitude := Binary64.ofRatio false 320596275 100000000 0
        z := Binary64.ofRatio false 1308600469753 100000 0
        heading := Binary64.ofRatio false 24 100 0
        tilt := Binary64.ofRatio false 16 100 0 }
    interacting := false
    highlights := []
    handles := 0
    pendingFrames := 0
    legendDisplay := page.legendDisplay
    legendLabel := page.legendLabel
    list := []
    calls := [] }

/-! ## SDK and browser calls -/

/-- Model of `view.goTo(target, options)`: the request is recorded; the camera animation
itself belongs to the SDK and arrives as `Event.cameraMoved`. -/
def viewGoTo (target : Earthquake) (zoom : Nat) (speedFactor : ℚ) (s : Session) : Session :=
  { s with calls := s.calls ++ [Call.goTo target zoom speedFactor] }

/-- Model of `handle.remove()`: the highlight carrying that handle stops being active. -/
def handleRemove (handle : Nat) (s : Session) : Session :=
  { s with
    highlights := s.highlights.filter (fun h => h.1 != handle)
    calls := s.calls ++ [Call.remove handle] }

/-- Model of `layerView.highlight(target)`: a highlight with a fresh handle becomes active
and the handle is returned. -/
def layerViewHighlight (target : Earthquake) (s : Session) : Nat × Session :=
  (s.handles,
    { s with
      highlights := s.highlights ++ [(s.handles, target)]
      handles := s.handles + 1
      calls := s.calls ++ [Call.highlight target s.handles] })

/-- Model of the assignment `view.camera = camera`. -/
def setViewCamera (camera : Camera) (s : Session) : Session :=
  { s with camera := camera, calls := s.calls ++ [Call.setCamera camera] }

/-- Model of `requestAnimationFrame(rotate)`: one more callback is pending. -/
def requestAnimationFrame (s : Session) : Session :=
  { s with pendingFrames := s.pendingFrames + 1, calls := s.calls ++ [Call.requestAnimationFrame] }

/-! ## Handlers of the script -/

/-- Embedding of the `whenLayerView` callback (main.js, lines 185-188). -/
def whenLayerViewThen (s : Session) : Session :=
  { s with earthquakeLayerView := true, calls := s.calls ++ [Call.consoleLog] }

/-- Lines 226-228 of the click handler: release the previous highlight, if any. -/
def releaseHighlight (s : Session) : Session :=
  match s.highlightHandler with
  | some handle => handleRemove handle s
  | none => s

/-- Line 229 of the click handler: highlight the earthquake and keep the handle. -/
def acquireHighlight (earthquake : Earthquake) (s : Session) : Session :=
  let r := layerViewHighlight earthquake s
  { r.2 with highlightHandler := some r.1 }

/-- Embedding of the click listener of a `goToButton` (main.js, lines 222-231). -/
def goToButtonClick (earthquake : Earthquake) (s : Session) : Session :=
  let s := { s with zooming := true }
  let s := viewGoTo earthquake 4 (1 / 2) s
  if s.earthquakeLayerView then
    acquireHighlight earthquake (releaseHighlight s)
  else
    s

/-- The template literal of lines 212-219 with the text of the date already computed. -/
def contentMarkup (host : Host) (attr : Earthquake) (dateTime : String) : String :=
  "\n          <div>\n            <h3>" ++ attr.place ++ "</h3>\n"
    ++ "            <span class=\"date-time\"><i>" ++ dateTime
    ++ "</i></span>\n            </br>\n            Magnitude " ++ host.numberText attr.mag
    ++ " | Depth " ++ host.numberText attr.depth ++ " km\n          </div>\n        "

/-- Markup assigned to `content.innerHTML` for one earthquake (main.js, lines 212-219);
evaluating the template calls `formatDate(attr.time)`, which may throw. -/
def contentHTML (host : Host) (attr : Earthquake) : Except String String :=
  match formatDateCall host attr.time with
  | Except.ok dateTime => Except.ok (contentMarkup host attr dateTime)
  | Except.error thrown => Except.error thrown

/-- Body of the `forEach` callback (main.js, lines 209-234): build the `content` element
with its button and append it to the list.  A throw while the markup is evaluated leaves
the callback before anything is appended. -/
def appendEarthquake (host : Host) (s : Session) (earthquake : Earthquake) :
    Except String Session :=
  match contentHTML host earthquake with
  | Except.error thrown => Except.error thrown
  | Except.ok html =>
    let content : Entry := { innerHTML := html, children := [] }
    let goToButton : Button := { innerText := "Zoom to earthquake", target := earthquake }
    let content := { content with children := content.children ++ [goToButton] }
    Except.ok { s with list := s.list ++ [content] }

/-- Embedding of the `then` callback of the query (main.js, lines 206-235): `forEach` runs
the callback on the features in order and stops at the first throw.  The result is the
state reached and the value thrown, if any. -/
def queryFeaturesThen (host : Host) : List Earthquake → Session → Session × Option String
  | [], s => (s, none)
  | earthquake :: rest, s =>
    match appendEarthquake host s earthquake with
    | Except.ok s1 => queryFeaturesThen host rest s1
    | Except.error thrown => (s, some thrown)

/-- Embedding of `.catch(console.error)` (main.js, line 236). -/
def queryFeaturesCatch (reason : String) (s : Session) : Session :=
  { s with calls := s.calls ++ [Call.consoleError reason] }

/-- Settling of the `queryFeatures` promise for `mag > 7` (main.js, lines 202-236): when it
is fulfilled the `then` callback runs on the features found, and what that callback throws
goes to `catch`; when it is rejected the rejection goes to `catch`. -/
def queryFeaturesSettle (host : Host) (outcome : Except String (List Earthquake))
    (s : Session) : Session :=
  match outcome with
  | Except.ok features =>
    match queryFeaturesThen host features s with
    | (s1, none) => s1
    | (s1, some thrown) => queryFeaturesCatch thrown s1
  | Except.error reason => queryFeaturesCatch reason s

/-- Embedding of the click listener of `toggle-exaggeration` (main.js, lines 238-246). -/
def toggleExaggerationClick (s : Session) : Session :=
  if s.exaggerated then
    { s with elevationInfo := realElevation, exaggerated := false }
  else
    { s with elevationInfo := exaggeratedElevation, exaggerated := true }

/-- Embedding of `rotate` (main.js, lines 248-255). -/
def rotate (s : Session) : Session :=
  if !s.interacting && !s.zooming then
    let camera := s.camera
    let camera := { camera with longitude := Binary64.sub camera.longitude Binary64.tenth }
    let s := setViewCamera camera s
    requestAnimationFrame s
  else
    s

/-- Embedding of the click listener of `legend-control` (main.js, lines 267-271). -/
def legendControlClick (s : Session) : Session :=
  let s := { s with legendDisplay := if s.legendVisible then "none" else "block" }
  let s :=
    { s with legendLabel := if s.legendVisible then "Show explanation" else "Hide explanation" }
  { s with legendVisible := !s.legendVisible }

/-! ## Events and runs -/

/-- What can happen to the page: the completions, clicks and frames the script has
registered handlers for, and the changes the SDK makes to the view on its own.  A
`zoomClick` is allowed for any earthquake, which covers every button the list can hold. -/
inductive Event where
  | layerViewReady
  | querySettled (outcome : Except String (List Earthquake))
  | zoomClick (earthquake : Earthquake)
  | exaggerationClick
  | legendClick
  | viewSettled
  | frame
  | interaction (interacting : Bool)
  | cameraMoved (camera : Camera)

/-- One event handled to completion.  `viewSettled` is the `whenFalseOnce` callback of
lines 259-261, which calls `rotate` (the clip distance set at line 258 is not part of the
state); `frame` lets the browser run one pending animation callback, if there is one. -/
def step (host : Host) (s : Session) : Event → Session
  | Event.layerViewReady => whenLayerViewThen s
  | Event.querySettled outcome => queryFeaturesSettle host outcome s
  | Event.zoomClick earthquake => goToButtonClick earthquake s
  | Event.exaggerationClick => toggleExaggerationClick s
  | Event.legendClick => legendControlClick s
  | Event.viewSettled => rotate s
  | Event.frame =>
    if s.pendingFrames = 0 then s else rotate { s with pendingFrames := s.pendingFrames - 1 }
  | Event.interaction interacting => { s with interacting := interacting }
  | Event.cameraMoved camera => { s with camera := camera }

/-- A finite sequence of events handled one after the other. -/
def run (host : Host) (s : Session) (events : List Event) : Session :=
  events.foldl (step host) s

/-- States the session can be in: those a run from the initial state ends in. -/
def Reachable (host : Host) (page : Page) (s : Session) : Prop :=
  ∃ events, run host (initial page) events = s

/-! ## A concrete host for evaluating the embedding -/

/-- Calendar fields of a timestamp in the UTC zone (proleptic Gregorian calendar), computed
from the day count since the epoch. -/
def utcFields (t : Int) : DateFields :=
  let days := t / 86400000
  let ms := t % 86400000
  let z := days + 719468
  let era := z / 146097
  let doe := z % 146097
  let yoe := (doe - doe / 1460 + doe / 36524 - doe / 146096) / 365
  let doy := doe - (365 * yoe + yoe / 4 - yoe / 100)
  let mp := (5 * doy + 2) / 153
  let d := doy - (153 * mp + 2) / 5 + 1
  let m := if mp < 10 then mp + 3 else mp - 9
  let y := yoe + era * 400 + (if m ≤ 2 then 1 else 0)
  { year := y
    month := ⟨(m - 1).toNat % 12, Nat.mod_lt _ (by decide)⟩
    day := d.toNat
    hours := (ms / 3600000).toNat
    minutes := (ms / 60000 % 60).toNat }

/-- Digits after the decimal point of `r / d` for `r < d`, at most `fuel` of them. -/
def fractionDigits : Nat → Nat → Nat → List Char
  | 0, _, _ => []
  | fuel + 1, r, d =>
    if r = 0 then [] else Nat.digitChar (r * 10 / d) :: fractionDigits fuel (r * 10 % d) d

/-- Decimal text of a rational with a short decimal expansion, such as `7.5` or `10`. -/
def decimalText (q : ℚ) : String :=
  let n := q.num.natAbs
  let d := q.den
  (if q.num < 0 then "-" else "") ++ toString (n / d)
    ++ (if n % d = 0 then "" else "." ++ String.mk (fractionDigits 17 (n % d) d))

/-- A host whose zone is UTC and whose numbers print as short decimals. -/
def utcHost : Host :=
  { localFields := utcFields, numberText := decimalText }

/-- A document whose markup sets no inline display on the legend container, so that
`style.display` reads as the empty text before the first click. -/
def plainPage : Page :=
  { legendDisplay := "", legendLabel := "Hide explanation" }

/-- The earthquake of the end-to-end scenario of the specification. -/
def testRidge : Earthquake :=
  { place := "Test Ridge", time := 1700000000000, mag := 15 / 2, depth := 10, image := "" }

/-- A second earthquake, used next to `testRidge` where two records are needed. -/
def otherRidge : Earthquake :=
  { place := "Other Ridge", time := 1709629620000, mag := 8, depth := 35, image := "" }

/-- Events that fill the earthquake list with the buttons of `testRidge` and `otherRidge`. -/
def listedEvents : List Event :=
  [Event.querySettled (Except.ok [testRidge, otherRidge])]

/-- A session in which the query has settled, so both zoom buttons exist, while the layer
view promise is still pending. -/
def listedSession : Session :=
  run utcHost (initial plainPage) listedEvents

/-- Events after which the list is built, the layer view is ready, `testRidge` is
highlighted and the exaggeration toggle has been clicked once. -/
def sampleEvents : List Event :=
  listedEvents ++ [Event.layerViewReady, Event.zoomClick testRidge, Event.exaggerationClick]

/-- The session reached from the initial state by `sampleEvents`. -/
def sampleSession : Session :=
  run utcHost (initial plainPage) sampleEvents

/-- Consistency of a session state: the active elevation configuration is the one the
remembered mode names, the active highlights are exactly the one `highlightHandler` refers
to (none when it is `null`), and nothing is highlighted while the layer view is `null`. -/
def Coherent (s : Session) : Prop :=
  s.elevationInfo = (if s.exaggerated then exaggeratedElevation else realElevation)
    ∧ s.highlights.map Prod.fst = s.highlightHandler.toList
    ∧ (s.earthquakeLayerView = false → s.highlightHandler = none)

/-- Specification side: a text holds a part when the part occurs in it. -/
def holds (text part : String) : Prop :=
  ∃ before after : String, text = before ++ part ++ after

/-- An earthquake whose time lies one millisecond beyond the range of valid dates. -/
def lateRidge : Earthquake :=
  { place := "Late Ridge", time := 8640000000000001, mag := 8, depth := 35, image := "" }

/-- The `content` element the list builder is expected to produce for one earthquake: the
markup with its attributes and a single "Zoom to earthquake" button bound to it. -/
def expectedEntry (host : Host) (earthquake : Earthquake) : Entry :=
  { innerHTML := contentMarkup host earthquake (formatDate host earthquake.time)
    children := [{ innerText := "Zoom to earthquake", target := earthquake }] }

/-! ## Date formatting: proofs -/

theorem toDigitsCore_head_ne_zero (fuel : Nat) :
    ∀ (n : Nat) (ds : List Char), n < fuel → 0 < n →
      (Nat.toDigitsCore 10 fuel n ds).head? ≠ some '0' := by
  induction fuel with
  | zero => intro n ds h; omega
  | succ fuel ih =>
    intro n ds hlt hpos
    simp only [Nat.toDigitsCore]
    split
    · have hn : n < 10 := by omega
      have hmod : n % 10 = n := Nat.mod_eq_of_lt hn
      rw [hmod]
      simp only [List.head?_cons, ne_eq, Option.some.injEq]
      interval_cases n <;> decide
    · apply ih
      · omega
      · omega

/-- The decimal text of a natural number is never zero padded. -/
theorem unpadded_toString (n : Nat) : unpadded (toString n) := by
  rcases Nat.eq_zero_or_pos n with h | h
  · left; subst h; rfl
  · right
    show (Nat.toDigitsCore 10 (n + 1) n []).head? ≠ some '0'
    exact toDigitsCore_head_ne_zero (n + 1) n [] (by omega) h

/-- The minutes text of `formatDate` is the two digit text of the minutes. -/
theorem minutes_text_eq_twoDigits :
    ∀ m < 60, (if m < 10 then "0" else "") ++ toString m = twoDigits m := by
  decide

theorem twoDigits_value : ∀ m < 60, decimalValue (twoDigits m) = m := by
  decide

theorem hours_text_length : ∀ h < 24, (toString h).length ≤ 2 := by
  decide

/-- C1: for a timestamp whose local calendar fields have hours below 24 and minutes below
60, `formatDate` returns exactly `<day> <full English month name> <year>, at <hours>:<mm>`,
where `mm` has exactly two digits and denotes the minutes, and the day and the hours are
written in decimal without zero padding (the hours in at most two digits). -/
theorem formatDate_contract (host : Host) (date : Int)
    (hh : (host.localFields date).hours < 24) (hm : (host.localFields date).minutes < 60) :
    formatDate host date = contractText (host.localFields date)
      ∧ (twoDigits (host.localFields date).minutes).length = 2
      ∧ decimalValue (twoDigits (host.localFields date).minutes)
          = (host.localFields date).minutes
      ∧ unpadded (toString (host.localFields date).day)
      ∧ unpadded (toString (host.localFields date).hours)
      ∧ (toString (host.localFields date).hours).length ≤ 2 := by
  refine ⟨?_, rfl, twoDigits_value _ hm, unpadded_toString _, unpadded_toString _,
    hours_text_length _ hh⟩
  simp only [formatDate, contractText, String.append_assoc]
  rw [← minutes_text_eq_twoDigits _ hm]

/-- The contract of `formatDate` at 2024-03-05 09:07 UTC on the UTC host, where the text is
`5 March 2024, at 9:07`. -/
theorem formatDate_contract_witness :
    (utcHost.localFields 1709629620000).hours < 24
      ∧ (utcHost.localFields 1709629620000).minutes < 60
      ∧ contractText (utcHost.localFields 1709629620000) = "5 March 2024, at 9:07"
      ∧ formatDate utcHost 1709629620000 = "5 March 2024, at 9:07"
      ∧ (formatDate utcHost 1709629620000
            = contractText (utcHost.localFields 1709629620000)
          ∧ (twoDigits (utcHost.localFields 1709629620000).minutes).length = 2
          ∧ decimalValue (twoDigits (utcHost.localFields 1709629620000).minutes)
              = (utcHost.localFields 1709629620000).minutes
          ∧ unpadded (toString (utcHost.localFields 1709629620000).day)
          ∧ unpadded (toString (utcHost.localFields 1709629620000).hours)
          ∧ (toString (utcHost.localFields 1709629620000).hours).length ≤ 2) :=
  ⟨by decide, by decide, by decide, by decide,
    formatDate_contract utcHost 1709629620000 (by decide) (by decide)⟩

/-! ## Rotation step -/

/-- C3: when `view.interacting` or `zooming` is true as `rotate` executes, the step leaves
`view.camera` as it was and issues no call at all, so no camera assignment happens. -/
theorem rotate_blocked_no_camera_update (s : Session)
    (h : s.interacting = true ∨ s.zooming = true) :
    (rotate s).camera = s.camera ∧ (rotate s).calls = s.calls ∧ rotate s = s := by
  rcases h with h | h <;> simp [rotate, h]

theorem rotate_blocked_no_camera_update_witness :
    ((goToButtonClick testRidge listedSession).interacting = true
        ∨ (goToButtonClick testRidge listedSession).zooming = true)
      ∧ ((rotate (goToButtonClick testRidge listedSession)).camera
            = (goToButtonClick testRidge listedSession).camera
          ∧ (rotate (goToButtonClick testRidge listedSession)).calls
            = (goToButtonClick testRidge listedSession).calls
          ∧ rotate (goToButtonClick testRidge listedSession)
            = goToButtonClick testRidge listedSession) :=
  ⟨Or.inr rfl,
    rotate_blocked_no_camera_update (goToButtonClick testRidge listedSession) (Or.inr rfl)⟩

/-- C10, as the script behaves: a rotation step executed with `view.interacting` and
`zooming` both false assigns a camera whose longitude is the binary64 difference of the
previous longitude and the literal `0.1` (the exact difference from the binary64 number
nearest to 1/10, rounded to nearest) and whose other fields are unchanged, and registers
exactly one further animation frame callback; a step executed with either of them true
registers none and issues no call, and if no other callback was pending the next frame
finds nothing to run, so the loop has stopped. -/
theorem rotate_step (host : Host) (s : Session) :
    (s.interacting = false → s.zooming = false →
        (rotate s).camera.longitude = Binary64.sub s.camera.longitude Binary64.tenth
          ∧ (rotate s).camera.latitude = s.camera.latitude
          ∧ (rotate s).camera.z = s.camera.z
          ∧ (rotate s).camera.heading = s.camera.heading
          ∧ (rotate s).camera.tilt = s.camera.tilt
          ∧ (rotate s).pendingFrames = s.pendingFrames + 1
          ∧ (rotate s).calls
              = s.calls ++ [Call.setCamera (rotate s).camera, Call.requestAnimationFrame])
      ∧ (s.interacting = true ∨ s.zooming = true →
          (rotate s).pendingFrames = s.pendingFrames
            ∧ (rotate s).calls = s.calls
            ∧ (s.pendingFrames = 0 → step host (rotate s) Event.frame = s)) := by
  constructor
  · intro hi hz
    simp [rotate, hi, hz, setViewCamera, requestAnimationFrame]
  · intro h
    have hs : rotate s = s := (by rcases h with h | h <;> simp [rotate, h])
    rw [hs]
    refine ⟨rfl, rfl, ?_⟩
    intro h0
    simp [step, h0]

theorem rotate_step_witness :
    ((initial plainPage).interacting = false ∧ (initial plainPage).zooming = false)
      ∧ ((rotate (initial plainPage)).camera.longitude
            = Binary64.sub (initial plainPage).camera.longitude Binary64.tenth
          ∧ (rotate (initial plainPage)).camera.longitude
            = { mantissa := -7438872180356206, exponent := -46 }
          ∧ (rotate (initial plainPage)).pendingFrames = 1)
      ∧ ((goToButtonClick testRidge listedSession).zooming = true
          ∧ (rotate (goToButtonClick testRidge listedSession)).pendingFrames = 0) := by
  have h1 := (rotate_step utcHost (initial plainPage)).1 rfl rfl
  have h2 := (rotate_step utcHost (goToButtonClick testRidge listedSession)).2 (Or.inr rfl)
  refine ⟨⟨rfl, rfl⟩, ⟨h1.1, ?_, h1.2.2.2.2.2.1⟩, rfl, ?_⟩
  · rw [h1.1]
    decide
  · rw [h2.1]
    rfl

/-- The literal `0.1` is the binary64 number 7205759403792794 / 2 ^ 56, which is not 1/10. -/
theorem tenth_not_exact :
    Binary64.tenth = { mantissa := 7205759403792794, exponent := -56 }
      ∧ Binary64.toRat Binary64.tenth ≠ 1 / 10 := by
  have h : Binary64.tenth = { mantissa := 7205759403792794, exponent := -56 } := by decide
  refine ⟨h, ?_⟩
  rw [h]
  simp only [Binary64.toRat]
  norm_num

/-- C10 fails as stated: from the initial camera, with `view.interacting` and `zooming`
both false, the first rotation step takes the longitude from -7431835305938440 / 2 ^ 46
(the number read from `-105.61273180`) to -7438872180356206 / 2 ^ 46, which is not the
previous longitude minus the rational 1/10; and after three steps the longitude is
-7452945929191738 / 2 ^ 46 (printed `-105.91273179999999`), not the number
-7452945929191739 / 2 ^ 46 that the decimal `-105.9127318` denotes. -/
theorem rotate_longitude_not_exact :
    (initial plainPage).interacting = false
      ∧ (initial plainPage).zooming = false
      ∧ (initial plainPage).camera.longitude
          = { mantissa := -7431835305938440, exponent := -46 }
      ∧ (rotate (initial plainPage)).camera.longitude
          = { mantissa := -7438872180356206, exponent := -46 }
      ∧ Binary64.toRat (rotate (initial plainPage)).camera.longitude
          ≠ Binary64.toRat (initial plainPage).camera.longitude - 1 / 10
      ∧ (run utcHost (initial plainPage)
            [Event.viewSettled, Event.frame, Event.frame]).camera.longitude
          = { mantissa := -7452945929191738, exponent := -46 }
      ∧ Binary64.ofRatio true 1059127318 10000000 0
          = { mantissa := -7452945929191739, exponent := -46 } := by
  have h0 : (initial plainPage).camera.longitude
      = { mantissa := -7431835305938440, exponent := -46 } := by decide
  have h1 : (rotate (initial plainPage)).camera.longitude
      = { mantissa := -7438872180356206, exponent := -46 } := by decide
  refine ⟨rfl, rfl, h0, h1, ?_, by decide, by decide⟩
  rw [h0, h1]
  simp only [Binary64.toRat]
  norm_num

/-! ## Elevation toggle -/

/-- C7, as the script behaves: a click on the exaggeration toggle always flips.  In every
state one click negates the remembered mode, and a second click leaves a remembered mode
and an active elevation configuration that both differ from those after the first click. -/
theorem toggle_always_flips (s : Session) :
    (toggleExaggerationClick s).exaggerated = !s.exaggerated
      ∧ (toggleExaggerationClick (toggleExaggerationClick s)).exaggerated
          ≠ (toggleExaggerationClick s).exaggerated
      ∧ (toggleExaggerationClick (toggleExaggerationClick s)).elevationInfo
          ≠ (toggleExaggerationClick s).elevationInfo := by
  cases h : s.exaggerated <;> simp [toggleExaggerationClick, h] <;> decide

/-- C7 fails as stated: from the initial state two clicks leave the exaggerated elevation
and mode `true`, while one click leaves the real elevation and mode `false`. -/
theorem toggle_not_idempotent :
    (toggleExaggerationClick (toggleExaggerationClick (initial plainPage))).elevationInfo
        = exaggeratedElevation
      ∧ (toggleExaggerationClick (initial plainPage)).elevationInfo = realElevation
      ∧ (toggleExaggerationClick (toggleExaggerationClick (initial plainPage))).exaggerated
        = true
      ∧ (toggleExaggerationClick (initial plainPage)).exaggerated = false
      ∧ ¬ ((toggleExaggerationClick (toggleExaggerationClick (initial plainPage))).elevationInfo
            = (toggleExaggerationClick (initial plainPage)).elevationInfo
          ∧ (toggleExaggerationClick (toggleExaggerationClick (initial plainPage))).exaggerated
            = (toggleExaggerationClick (initial plainPage)).exaggerated) := by
  refine ⟨rfl, rfl, rfl, rfl, ?_⟩
  intro h
  exact absurd h.2 (by decide)

/-! ## Invariant of reachable states -/

theorem coherent_initial (page : Page) : Coherent (initial page) := by
  simp [Coherent, initial]

theorem queryFeaturesThen_frame (host : Host) (features : List Earthquake) :
    ∀ s : Session, ∃ entries,
      (queryFeaturesThen host features s).1 = { s with list := s.list ++ entries } := by
  induction features with
  | nil =>
    intro s
    exact ⟨[], by simp [queryFeaturesThen]⟩
  | cons e rest ih =>
    intro s
    cases hc : contentHTML host e with
    | error thrown =>
      exact ⟨[], by simp [queryFeaturesThen, appendEarthquake, hc]⟩
    | ok html =>
      simp only [queryFeaturesThen, appendEarthquake, hc]
      obtain ⟨entries, he⟩ := ih { s with list := s.list ++
        [{ innerHTML := html,
           children := [] ++ [{ innerText := "Zoom to earthquake", target := e }] }] }
      exact ⟨{ innerHTML := html,
               children := [{ innerText := "Zoom to earthquake", target := e }] } :: entries,
        by rw [he]; simp⟩

theorem queryFeaturesSettle_frame (host : Host) (outcome : Except String (List Earthquake))
    (s : Session) :
    ∃ entries calls, queryFeaturesSettle host outcome s
      = { s with list := entries, calls := calls } := by
  cases outcome with
  | error reason => exact ⟨s.list, s.calls ++ [Call.consoleError reason], rfl⟩
  | ok features =>
    obtain ⟨entries, he⟩ := queryFeaturesThen_frame host features s
    simp only [queryFeaturesSettle]
    cases hq : queryFeaturesThen host features s with
    | mk s1 thrown =>
      rw [hq] at he
      simp only at he
      cases thrown with
      | none => exact ⟨s.list ++ entries, s.calls, by simp [he]⟩
      | some thrown =>
        exact ⟨s.list ++ entries, s.calls ++ [Call.consoleError thrown],
          by simp [he, queryFeaturesCatch]⟩

theorem queryFeaturesThen_valid (host : Host) (features : List Earthquake) :
    ∀ s : Session, (∀ e ∈ features, validTime e.time = true) →
      queryFeaturesThen host features s
        = ({ s with list := s.list ++ features.map (expectedEntry host) }, none) := by
  induction features with
  | nil =>
    intro s _
    simp [queryFeaturesThen]
  | cons e rest ih =>
    intro s hv
    have he : validTime e.time = true := hv e (List.mem_cons_self e rest)
    have hr : ∀ x ∈ rest, validTime x.time = true :=
      fun x hx => hv x (List.mem_cons_of_mem e hx)
    simp only [queryFeaturesThen, appendEarthquake, contentHTML, formatDateCall, he, if_true]
    rw [ih _ hr]
    simp [expectedEntry]

theorem coherent_queryFeaturesSettle (host : Host) (outcome : Except String (List Earthquake))
    (s : Session) (h : Coherent s) : Coherent (queryFeaturesSettle host outcome s) := by
  obtain ⟨entries, calls, he⟩ := queryFeaturesSettle_frame host outcome s
  rw [he]
  exact h

theorem releaseHighlight_highlights (s : Session) (h : Coherent s) :
    (releaseHighlight s).highlights = [] := by
  obtain ⟨_, hh, _⟩ := h
  unfold releaseHighlight
  cases hk : s.highlightHandler with
  | none =>
    rw [hk] at hh
    simpa using hh
  | some handle =>
    rw [hk] at hh
    simp only [Option.toList] at hh
    match hl : s.highlights, hh with
    | [x], hx =>
      simp only [List.map_cons, List.map_nil, List.cons.injEq, and_true] at hx
      simp [handleRemove, hl, hx]

theorem coherent_goToButtonClick (earthquake : Earthquake) (s : Session) (h : Coherent s) :
    Coherent (goToButtonClick earthquake s) := by
  have h1 : Coherent (viewGoTo earthquake 4 (1 / 2) { s with zooming := true }) := h
  have hr := releaseHighlight_highlights _ h1
  unfold goToButtonClick
  simp only
  split
  · rename_i hv
    refine ⟨?_, ?_, ?_⟩
    · have := h.1
      cases hk : s.highlightHandler <;>
        simpa [acquireHighlight, layerViewHighlight, releaseHighlight, handleRemove, viewGoTo, hk]
          using this
    · simp only [acquireHighlight, layerViewHighlight, hr, List.nil_append, List.map_cons,
        List.map_nil, Option.toList]
    · intro hf
      cases hk : s.highlightHandler <;>
        simp [acquireHighlight, layerViewHighlight, releaseHighlight, handleRemove, viewGoTo, hk]
          at hf hv <;> simp [hv] at hf
  · exact h1

theorem coherent_rotate (s : Session) (h : Coherent s) : Coherent (rotate s) := by
  unfold rotate
  split
  · exact h
  · exact h

theorem coherent_step (host : Host) (s : Session) (event : Event) (h : Coherent s) :
    Coherent (step host s event) := by
  cases event with
  | layerViewReady =>
    exact ⟨h.1, h.2.1, by simp [step, whenLayerViewThen]⟩
  | querySettled outcome => exact coherent_queryFeaturesSettle host outcome s h
  | zoomClick earthquake => exact coherent_goToButtonClick earthquake s h
  | exaggerationClick =>
    obtain ⟨_, h2, h3⟩ := h
    simp only [step, toggleExaggerationClick]
    split
    · exact ⟨rfl, h2, h3⟩
    · exact ⟨rfl, h2, h3⟩
  | legendClick => exact h
  | viewSettled => exact coherent_rotate s h
  | frame =>
    simp only [step]
    split
    · exact h
    · exact coherent_rotate _ h
  | interaction interacting => exact h
  | cameraMoved camera => exact h

theorem coherent_run (host : Host) (events : List Event) :
    ∀ s : Session, Coherent s → Coherent (run host s events) := by
  induction events with
  | nil => intro s h; exact h
  | cons event rest ih =>
    intro s h
    exact ih _ (coherent_step host s event h)

theorem coherent_of_reachable (host : Host) (page : Page) (s : Session)
    (h : Reachable host page s) : Coherent s := by
  obtain ⟨events, rfl⟩ := h
  exact coherent_run host events _ (coherent_initial page)

theorem coherent_highlights (s : Session) (h : Coherent s) :
    (s.highlightHandler = none ∧ s.highlights = [])
      ∨ ∃ handle earthquake,
          s.highlightHandler = some handle ∧ s.highlights = [(handle, earthquake)] := by
  obtain ⟨_, hh, _⟩ := h
  cases hk : s.highlightHandler with
  | none =>
    rw [hk] at hh
    left
    exact ⟨rfl, by simpa using hh⟩
  | some handle =>
    rw [hk] at hh
    simp only [Option.toList] at hh
    right
    match hl : s.highlights, hh with
    | [x], hx =>
      simp only [List.map_cons, List.map_nil, List.cons.injEq, and_true] at hx
      exact ⟨handle, x.2, rfl, by rw [← hx]⟩

theorem goToButtonClick_ready (earthquake : Earthquake) (s : Session) (h : Coherent s)
    (hv : s.earthquakeLayerView = true) :
    (goToButtonClick earthquake s).highlights = [(s.handles, earthquake)]
      ∧ (goToButtonClick earthquake s).highlightHandler = some s.handles
      ∧ (goToButtonClick earthquake s).handles = s.handles + 1
      ∧ (goToButtonClick earthquake s).earthquakeLayerView = true
      ∧ (goToButtonClick earthquake s).calls
          = s.calls ++ [Call.goTo earthquake 4 (1 / 2)]
              ++ s.highlightHandler.toList.map Call.remove
              ++ [Call.highlight earthquake s.handles] := by
  have h1 : Coherent (viewGoTo earthquake 4 (1 / 2) { s with zooming := true }) := h
  have hr := releaseHighlight_highlights _ h1
  have hg : goToButtonClick earthquake s
      = acquireHighlight earthquake
          (releaseHighlight (viewGoTo earthquake 4 (1 / 2) { s with zooming := true })) := by
    simp only [goToButtonClick, viewGoTo, hv, if_true]
  rw [hg]
  refine ⟨?_, ?_, ?_, ?_, ?_⟩
  · simp only [acquireHighlight, layerViewHighlight, hr, List.nil_append]
    cases hk : s.highlightHandler <;> simp [releaseHighlight, handleRemove, viewGoTo, hk]
  · cases hk : s.highlightHandler <;>
      simp [acquireHighlight, layerViewHighlight, releaseHighlight, handleRemove, viewGoTo, hk]
  · cases hk : s.highlightHandler <;>
      simp [acquireHighlight, layerViewHighlight, releaseHighlight, handleRemove, viewGoTo, hk]
  · cases hk : s.highlightHandler <;>
      simp [acquireHighlight, layerViewHighlight, releaseHighlight, handleRemove, viewGoTo, hk,
        hv]
  · cases hk : s.highlightHandler <;>
      simp [acquireHighlight, layerViewHighlight, releaseHighlight, handleRemove, viewGoTo, hk]

theorem goToButtonClick_not_ready (earthquake : Earthquake) (s : Session)
    (hv : s.earthquakeLayerView = false) :
    goToButtonClick earthquake s
      = viewGoTo earthquake 4 (1 / 2) { s with zooming := true } := by
  simp only [goToButtonClick, viewGoTo, hv]
  rfl

/-! ## Highlight handle -/

/-- C2, as the script behaves: in every reachable state in which `earthquakeLayerView` has
been set, activating the zoom control for A and then for B leaves exactly one active
highlight, it is on B, and `highlightHandler` refers to it; in every reachable state in
which `earthquakeLayerView` is still `null`, the two activations leave no active
highlight. -/
theorem zoom_twice_single_highlight (host : Host) (page : Page) (s : Session)
    (h : Reachable host page s) (a b : Earthquake) :
    (s.earthquakeLayerView = true →
        ∃ handle,
          (goToButtonClick b (goToButtonClick a s)).highlights = [(handle, b)]
            ∧ (goToButtonClick b (goToButtonClick a s)).highlightHandler = some handle)
      ∧ (s.earthquakeLayerView = false →
          (goToButtonClick b (goToButtonClick a s)).highlights = []
            ∧ (goToButtonClick b (goToButtonClick a s)).highlightHandler = none) := by
  have hc := coherent_of_reachable host page s h
  constructor
  · intro hv
    have ha := goToButtonClick_ready a s hc hv
    have hb := goToButtonClick_ready b _ (coherent_goToButtonClick a s hc) ha.2.2.2.1
    exact ⟨_, hb.1, hb.2.1⟩
  · intro hv
    have hnone : s.highlightHandler = none := hc.2.2 hv
    have hnil : s.highlights = [] := by
      rcases coherent_highlights s hc with ⟨_, hl⟩ | ⟨handle, e, hk, _⟩
      · exact hl
      · rw [hnone] at hk; cases hk
    have hb := goToButtonClick_not_ready b
      (viewGoTo a 4 (1 / 2) { s with zooming := true }) hv
    rw [goToButtonClick_not_ready a s hv, hb]
    exact ⟨hnil, hnone⟩

theorem zoom_twice_single_highlight_witness :
    Reachable utcHost plainPage sampleSession
      ∧ sampleSession.earthquakeLayerView = true
      ∧ ∃ handle,
          (goToButtonClick otherRidge (goToButtonClick testRidge sampleSession)).highlights
              = [(handle, otherRidge)]
            ∧ (goToButtonClick otherRidge
                (goToButtonClick testRidge sampleSession)).highlightHandler = some handle :=
  ⟨⟨sampleEvents, rfl⟩, rfl,
    (zoom_twice_single_highlight utcHost plainPage sampleSession ⟨sampleEvents, rfl⟩
      testRidge otherRidge).1 rfl⟩

/-- C2 fails as stated: once the query has settled the zoom buttons exist, but while the
layer view promise is pending `earthquakeLayerView` is `null`, and activating the zoom
control for one earthquake and then for another leaves no active highlight. -/
theorem zoom_twice_before_layer_view :
    Reachable utcHost plainPage listedSession
      ∧ listedSession.earthquakeLayerView = false
      ∧ listedSession.list.length = 2
      ∧ (goToButtonClick otherRidge (goToButtonClick testRidge listedSession)).highlights
          = []
      ∧ (goToButtonClick otherRidge
          (goToButtonClick testRidge listedSession)).highlightHandler = none
      ∧ ¬ ∃ handle,
          (goToButtonClick otherRidge (goToButtonClick testRidge listedSession)).highlights
            = [(handle, otherRidge)] := by
  refine ⟨⟨listedEvents, rfl⟩, rfl, rfl, rfl, rfl, ?_⟩
  rintro ⟨handle, hh⟩
  have hnil : (goToButtonClick otherRidge
      (goToButtonClick testRidge listedSession)).highlights = [] := rfl
  rw [hnil] at hh
  cases hh

/-- C8: in every state reachable from the initial state at most one highlight is active,
every active highlight is the one `highlightHandler` refers to, and a non-null
`highlightHandler` refers to an active highlight.  Within an activation, when the layer
view is set, the handler is the step that releases followed by the step that acquires: after
the release no highlight is active, the `remove` call of the previous handle comes before
the `highlight` call in the call log, and afterwards the only active highlight is the new
one, held by `highlightHandler`. -/
theorem highlight_at_most_one (host : Host) (page : Page) (s : Session)
    (h : Reachable host page s) :
    s.highlights.length ≤ 1
      ∧ (∀ x ∈ s.highlights, s.highlightHandler = some x.1)
      ∧ (∀ handle, s.highlightHandler = some handle → handle ∈ s.highlights.map Prod.fst)
      ∧ ∀ earthquake, s.earthquakeLayerView = true →
          goToButtonClick earthquake s
              = acquireHighlight earthquake
                  (releaseHighlight (viewGoTo earthquake 4 (1 / 2) { s with zooming := true }))
            ∧ (releaseHighlight
                (viewGoTo earthquake 4 (1 / 2) { s with zooming := true })).highlights = []
            ∧ (goToButtonClick earthquake s).calls
                = s.calls ++ [Call.goTo earthquake 4 (1 / 2)]
                    ++ s.highlightHandler.toList.map Call.remove
                    ++ [Call.highlight earthquake s.handles]
            ∧ (goToButtonClick earthquake s).highlights = [(s.handles, earthquake)]
            ∧ (goToButtonClick earthquake s).highlightHandler = some s.handles := by
  have hc := coherent_of_reachable host page s h
  refine ⟨?_, ?_, ?_, ?_⟩
  · rcases coherent_highlights s hc with ⟨_, hl⟩ | ⟨handle, e, _, hl⟩ <;> simp [hl]
  · intro x hx
    rcases coherent_highlights s hc with ⟨_, hl⟩ | ⟨handle, e, hk, hl⟩
    · rw [hl] at hx; cases hx
    · rw [hl] at hx
      simp only [List.mem_singleton] at hx
      rw [hk, hx]
  · intro handle hk
    rw [hc.2.1, hk]
    simp
  · intro earthquake hv
    have hr := goToButtonClick_ready earthquake s hc hv
    have h1 : Coherent (viewGoTo earthquake 4 (1 / 2) { s with zooming := true }) := hc
    refine ⟨?_, releaseHighlight_highlights _ h1, hr.2.2.2.2, hr.1, hr.2.1⟩
    simp only [goToButtonClick, viewGoTo, hv, if_true]

theorem highlight_at_most_one_witness :
    Reachable utcHost plainPage sampleSession
      ∧ sampleSession.highlights = [(0, testRidge)]
      ∧ sampleSession.highlightHandler = some 0
      ∧ (goToButtonClick otherRidge sampleSession).calls
          = sampleSession.calls ++ [Call.goTo otherRidge 4 (1 / 2)]
              ++ sampleSession.highlightHandler.toList.map Call.remove
              ++ [Call.highlight otherRidge sampleSession.handles]
      ∧ (goToButtonClick otherRidge sampleSession).highlights = [(1, otherRidge)] :=
  ⟨⟨sampleEvents, rfl⟩, rfl, rfl,
    ((highlight_at_most_one utcHost plainPage sampleSession ⟨sampleEvents, rfl⟩).2.2.2
      otherRidge rfl).2.2.1,
    ((highlight_at_most_one utcHost plainPage sampleSession ⟨sampleEvents, rfl⟩).2.2.2
      otherRidge rfl).2.2.2.1⟩

/-! ## Zooming flag -/

theorem rotate_zooming (s : Session) : (rotate s).zooming = s.zooming := by
  unfold rotate
  split <;> rfl

theorem step_zooming (host : Host) (s : Session) (event : Event) (h : s.zooming = true) :
    (step host s event).zooming = true := by
  cases event with
  | layerViewReady => exact h
  | querySettled outcome =>
    obtain ⟨entries, calls, he⟩ := queryFeaturesSettle_frame host outcome s
    simp only [step]
    rw [he]
    exact h
  | zoomClick earthquake =>
    simp only [step, goToButtonClick]
    split
    · cases hk : s.highlightHandler <;>
        simp [acquireHighlight, layerViewHighlight, releaseHighlight, handleRemove, viewGoTo, hk]
    · rfl
  | exaggerationClick =>
    simp only [step, toggleExaggerationClick]
    split <;> exact h
  | legendClick => exact h
  | viewSettled => rw [step, rotate_zooming]; exact h
  | frame =>
    simp only [step]
    split
    · exact h
    · rw [rotate_zooming]; exact h
  | interaction interacting => exact h
  | cameraMoved camera => exact h

theorem run_zooming (host : Host) (events : List Event) :
    ∀ s : Session, s.zooming = true → (run host s events).zooming = true := by
  induction events with
  | nil => intro s h; exact h
  | cons event rest ih =>
    intro s h
    exact ih _ (step_zooming host s event h)

theorem goToButtonClick_zooming (earthquake : Earthquake) (s : Session) :
    (goToButtonClick earthquake s).zooming = true := by
  simp only [goToButtonClick]
  split
  · cases hk : s.highlightHandler <;>
      simp [acquireHighlight, layerViewHighlight, releaseHighlight, handleRemove, viewGoTo, hk]
  · rfl

/-- C9: a zoom-button activation sets `zooming`, and after any sequence of events that
follows it `zooming` is still true; a rotation step executed then changes nothing: it
neither assigns the camera nor registers another animation frame callback. -/
theorem zooming_never_cleared (host : Host) (s : Session) (earthquake : Earthquake)
    (events : List Event) :
    (goToButtonClick earthquake s).zooming = true
      ∧ (run host (goToButtonClick earthquake s) events).zooming = true
      ∧ (rotate (run host (goToButtonClick earthquake s) events)).camera
          = (run host (goToButtonClick earthquake s) events).camera
      ∧ (rotate (run host (goToButtonClick earthquake s) events)).pendingFrames
          = (run host (goToButtonClick earthquake s) events).pendingFrames
      ∧ (rotate (run host (goToButtonClick earthquake s) events)).calls
          = (run host (goToButtonClick earthquake s) events).calls
      ∧ step host (run host (goToButtonClick earthquake s) events) Event.viewSettled
          = run host (goToButtonClick earthquake s) events
      ∧ (step host (run host (goToButtonClick earthquake s) events) Event.frame).camera
          = (run host (goToButtonClick earthquake s) events).camera
      ∧ (step host (run host (goToButtonClick earthquake s) events) Event.frame).pendingFrames
          ≤ (run host (goToButtonClick earthquake s) events).pendingFrames := by
  have hz := run_zooming host events _ (goToButtonClick_zooming earthquake s)
  have hr : rotate (run host (goToButtonClick earthquake s) events)
      = run host (goToButtonClick earthquake s) events := by
    simp [rotate, hz]
  refine ⟨goToButtonClick_zooming earthquake s, hz, ?_, ?_, ?_, ?_, ?_, ?_⟩
  · rw [hr]
  · rw [hr]
  · rw [hr]
  · simp only [step]
    exact hr
  · simp only [step]
    split
    · rfl
    · simp [rotate, hz]
  · simp only [step]
    split
    · exact Nat.le_refl _
    · simp [rotate, hz]

/-! ## Elevation toggle on reachable states -/

/-- C4: in every state the session can reach, two clicks in a row on the exaggeration
toggle restore the active elevation configuration of the earthquake layer and the
remembered mode; the whole state is as before the two clicks. -/
theorem toggle_twice_restores (host : Host) (page : Page) (s : Session)
    (h : Reachable host page s) :
    (toggleExaggerationClick (toggleExaggerationClick s)).elevationInfo = s.elevationInfo
      ∧ (toggleExaggerationClick (toggleExaggerationClick s)).exaggerated = s.exaggerated
      ∧ toggleExaggerationClick (toggleExaggerationClick s) = s := by
  have hc := (coherent_of_reachable host page s h).1
  have hs : toggleExaggerationClick (toggleExaggerationClick s) = s := by
    cases s with
    | mk exaggerated =>
      cases exaggerated <;> simp_all [toggleExaggerationClick]
  rw [hs]
  exact ⟨rfl, rfl, rfl⟩

theorem toggle_twice_restores_witness :
    Reachable utcHost plainPage sampleSession
      ∧ sampleSession.elevationInfo = realElevation
      ∧ sampleSession.exaggerated = false
      ∧ (toggleExaggerationClick sampleSession).elevationInfo = exaggeratedElevation
      ∧ (toggleExaggerationClick (toggleExaggerationClick sampleSession)).elevationInfo
          = sampleSession.elevationInfo
      ∧ (toggleExaggerationClick (toggleExaggerationClick sampleSession)).exaggerated
          = sampleSession.exaggerated :=
  ⟨⟨sampleEvents, rfl⟩, rfl, rfl, rfl,
    (toggle_twice_restores utcHost plainPage sampleSession ⟨sampleEvents, rfl⟩).1,
    (toggle_twice_restores utcHost plainPage sampleSession ⟨sampleEvents, rfl⟩).2.1⟩

/-! ## Legend toggle -/

/-- C5, as the script behaves: two clicks on the legend control restore the visibility
flag in every state, and restore the display value of the container whenever that value
agrees with the flag ("block" when visible, "none" when hidden), which is the case after
any click.  After every single click the label is "Show explanation" exactly when the
container has just been hidden (display "none", flag false) and "Hide explanation" exactly
when it has just been shown (display "block", flag true). -/
theorem legend_click_twice (s : Session) :
    (legendControlClick (legendControlClick s)).legendVisible = s.legendVisible
      ∧ (s.legendDisplay = (if s.legendVisible then "block" else "none") →
          (legendControlClick (legendControlClick s)).legendDisplay = s.legendDisplay)
      ∧ (legendControlClick s).legendDisplay
          = (if (legendControlClick s).legendVisible then "block" else "none")
      ∧ ((legendControlClick s).legendLabel = "Show explanation"
          ↔ (legendControlClick s).legendDisplay = "none")
      ∧ ((legendControlClick s).legendLabel = "Hide explanation"
          ↔ (legendControlClick s).legendDisplay = "block")
      ∧ ((legendControlClick s).legendDisplay = "none"
          ↔ (s.legendVisible = true ∧ (legendControlClick s).legendVisible = false))
      ∧ ((legendControlClick s).legendDisplay = "block"
          ↔ (s.legendVisible = false ∧ (legendControlClick s).legendVisible = true)) := by
  cases hv : s.legendVisible <;> simp [legendControlClick, hv] <;> exact fun h => h.symm

theorem legend_click_twice_witness :
    (legendControlClick (initial plainPage)).legendDisplay
        = (if (legendControlClick (initial plainPage)).legendVisible then "block" else "none")
      ∧ (legendControlClick (legendControlClick (legendControlClick (initial plainPage)))).legendDisplay
          = (legendControlClick (initial plainPage)).legendDisplay :=
  ⟨rfl,
    (legend_click_twice (legendControlClick (initial plainPage))).2.1 rfl⟩

/-- C5 fails as stated: on a page whose legend container carries no inline display value
the display reads as the empty text before the first click, and two clicks leave "block". -/
theorem legend_display_not_restored :
    (initial plainPage).legendDisplay = ""
      ∧ (legendControlClick (legendControlClick (initial plainPage))).legendDisplay = "block"
      ∧ (legendControlClick (legendControlClick (initial plainPage))).legendDisplay
          ≠ (initial plainPage).legendDisplay := by
  refine ⟨rfl, rfl, ?_⟩
  decide

/-! ## Earthquake list -/

theorem contentMarkup_holds (host : Host) (attr : Earthquake) (dateTime : String) :
    holds (contentMarkup host attr dateTime) attr.place
      ∧ holds (contentMarkup host attr dateTime) dateTime
      ∧ holds (contentMarkup host attr dateTime) (host.numberText attr.mag)
      ∧ holds (contentMarkup host attr dateTime) (host.numberText attr.depth) := by
  refine ⟨⟨"\n          <div>\n            <h3>",
      "</h3>\n" ++ "            <span class=\"date-time\"><i>" ++ dateTime
        ++ "</i></span>\n            </br>\n            Magnitude " ++ host.numberText attr.mag
        ++ " | Depth " ++ host.numberText attr.depth ++ " km\n          </div>\n        ", ?_⟩,
    ⟨"\n          <div>\n            <h3>" ++ attr.place ++ "</h3>\n"
        ++ "            <span class=\"date-time\"><i>",
      "</i></span>\n            </br>\n            Magnitude " ++ host.numberText attr.mag
        ++ " | Depth " ++ host.numberText attr.depth ++ " km\n          </div>\n        ", ?_⟩,
    ⟨"\n          <div>\n            <h3>" ++ attr.place ++ "</h3>\n"
        ++ "            <span class=\"date-time\"><i>" ++ dateTime
        ++ "</i></span>\n            </br>\n            Magnitude ",
      " | Depth " ++ host.numberText attr.depth ++ " km\n          </div>\n        ", ?_⟩,
    ⟨"\n          <div>\n            <h3>" ++ attr.place ++ "</h3>\n"
        ++ "            <span class=\"date-time\"><i>" ++ dateTime
        ++ "</i></span>\n            </br>\n            Magnitude " ++ host.numberText attr.mag
        ++ " | Depth ",
      " km\n          </div>\n        ", ?_⟩⟩ <;>
    simp only [contentMarkup, String.append_assoc]

/-- C6, as the script behaves: starting from an empty earthquake list, when the `mag > 7`
query succeeds with features `fs` that all carry a valid timestamp, the list ends up with
exactly one entry per element of `fs`, in the order of `fs`, and nothing is logged; the
call `formatDate(time)` returns for each of them, and the entry at each position has the
markup holding the place, that formatted date, the magnitude and the depth of the feature
at that position and exactly one appended child, a button labelled "Zoom to earthquake"
whose activation zooms to that feature.  When the query fails nothing is appended: the
list is still empty and the failure is logged. -/
theorem earthquake_list_built (host : Host) (s : Session) (hs : s.list = []) :
    (∀ features : List Earthquake, (∀ e ∈ features, validTime e.time = true) →
        (queryFeaturesSettle host (Except.ok features) s).list.length = features.length
          ∧ (queryFeaturesSettle host (Except.ok features) s).list
              = features.map (expectedEntry host)
          ∧ (queryFeaturesSettle host (Except.ok features) s).calls = s.calls
          ∧ ∀ (i : Nat) (hi : i < features.length),
              ∃ entry, (queryFeaturesSettle host (Except.ok features) s).list[i]? = some entry
                ∧ formatDateCall host features[i].time
                    = Except.ok (formatDate host features[i].time)
                ∧ holds entry.innerHTML features[i].place
                ∧ holds entry.innerHTML (formatDate host features[i].time)
                ∧ holds entry.innerHTML (host.numberText features[i].mag)
                ∧ holds entry.innerHTML (host.numberText features[i].depth)
                ∧ entry.children
                    = [{ innerText := "Zoom to earthquake", target := features[i] }])
      ∧ ∀ reason : String,
          (queryFeaturesSettle host (Except.error reason) s).list = []
            ∧ (queryFeaturesSettle host (Except.error reason) s).calls
                = s.calls ++ [Call.consoleError reason] := by
  constructor
  · intro features hv
    have hq : queryFeaturesSettle host (Except.ok features) s
        = { s with list := s.list ++ features.map (expectedEntry host) } := by
      simp only [queryFeaturesSettle, queryFeaturesThen_valid host features s hv]
    have hl : (queryFeaturesSettle host (Except.ok features) s).list
        = features.map (expectedEntry host) := by
      rw [hq]
      simp [hs]
    refine ⟨by rw [hl, List.length_map], hl, by rw [hq], ?_⟩
    intro i hi
    refine ⟨expectedEntry host features[i], ?_, ?_, ?_⟩
    · rw [hl]
      simp [hi]
    · simp [formatDateCall, hv features[i] (List.getElem_mem hi)]
    · have hh := contentMarkup_holds host features[i] (formatDate host features[i].time)
      exact ⟨hh.1, hh.2.1, hh.2.2.1, hh.2.2.2, rfl⟩
  · intro reason
    exact ⟨hs, rfl⟩

theorem earthquake_list_built_witness :
    (initial plainPage).list = []
      ∧ (∀ e ∈ [testRidge], validTime e.time = true)
      ∧ formatDate utcHost testRidge.time = "14 November 2023, at 22:13"
      ∧ (queryFeaturesSettle utcHost (Except.ok [testRidge]) (initial plainPage)).list.length = 1
      ∧ (queryFeaturesSettle utcHost (Except.ok [testRidge]) (initial plainPage)).list
          = [expectedEntry utcHost testRidge]
      ∧ (queryFeaturesSettle utcHost (Except.ok [testRidge]) (initial plainPage)).calls = []
      ∧ (queryFeaturesSettle utcHost (Except.error "rejected") (initial plainPage)).list = [] :=
  ⟨rfl, by decide, by decide,
    ((earthquake_list_built utcHost (initial plainPage) rfl).1 [testRidge] (by decide)).1,
    ((earthquake_list_built utcHost (initial plainPage) rfl).1 [testRidge] (by decide)).2.1,
    ((earthquake_list_built utcHost (initial plainPage) rfl).1 [testRidge] (by decide)).2.2.1,
    ((earthquake_list_built utcHost (initial plainPage) rfl).2 "rejected").1⟩

/-- C6 fails as stated: when the query succeeds with three features of which the second
carries a time one millisecond beyond the valid range, `formatDate` throws inside `forEach`
for the second feature; the list ends up with the entry of the first feature only and the
`RangeError` is logged by `catch`. -/
theorem earthquake_list_stops_at_invalid_time :
    (initial plainPage).list = []
      ∧ validTime lateRidge.time = false
      ∧ formatDateCall utcHost lateRidge.time = Except.error "RangeError: Invalid time value"
      ∧ (queryFeaturesSettle utcHost (Except.ok [testRidge, lateRidge, otherRidge])
          (initial plainPage)).list = [expectedEntry utcHost testRidge]
      ∧ (queryFeaturesSettle utcHost (Except.ok [testRidge, lateRidge, otherRidge])
          (initial plainPage)).list.length ≠ [testRidge, lateRidge, otherRidge].length
      ∧ (queryFeaturesSettle utcHost (Except.ok [testRidge, lateRidge, otherRidge])
          (initial plainPage)).calls = [Call.consoleError "RangeError: Invalid time value"] := by
  have hl : (queryFeaturesSettle utcHost (Except.ok [testRidge, lateRidge, otherRidge])
      (initial plainPage)).list = [expectedEntry utcHost testRidge] := rfl
  refine ⟨rfl, rfl, rfl, hl, ?_, rfl⟩
  rw [hl]
  decide

/-! ## The end-to-end scenario evaluated on the UTC host -/

theorem decimalText_testRidge_mag : decimalText testRidge.mag = "7.5" := by
  have hn : ((15 : ℚ) / 2).num = 15 := by norm_num
  have hd : ((15 : ℚ) / 2).den = 2 := by norm_num
  simp only [decimalText, testRidge, hn, hd]
  decide

theorem decimalText_testRidge_depth : decimalText testRidge.depth = "10" := by
  decide

/-- The markup of the single entry built for `testRidge` on the UTC host. -/
theorem contentHTML_testRidge :
    contentHTML utcHost testRidge
      = Except.ok ("\n          <div>\n            <h3>Test Ridge</h3>\n"
        ++ "            <span class=\"date-time\"><i>14 November 2023, at 22:13</i></span>\n"
        ++ "            </br>\n            Magnitude 7.5 | Depth 10 km\n"
        ++ "          </div>\n        ") := by
  have hv : validTime testRidge.time = true := by decide
  have hf : formatDate utcHost testRidge.time = "14 November 2023, at 22:13" := by decide
  simp only [contentHTML, formatDateCall, hv, if_true, contentMarkup, hf]
  simp only [utcHost, decimalText_testRidge_mag, decimalText_testRidge_depth]
  rfl

end EarthquakesViz
